import Mathlib

/-!
# Shallow embedding of the medical-appointment scheduling backend

This file embeds the domain logic of `src/app.py` (a Flask + SQLAlchemy
service) and proves the spec's claims about it.

Modelling conventions:
* Database tables become lists of records inside a `Store`; the primary-key
  uuid generator becomes an explicit `newId : String` argument.
* Python `Float` columns (`consultation_fee`, `rating_average`) are modelled
  as exact rationals (`Rat`); the concrete values the claims mention are
  exactly representable in both.
* `Date`/`Time` columns and the enum-valued `status` column are stored as
  strings, matching the SQLite storage and the string comparisons the
  handlers perform (`filter_by(date=...)`, `filter_by(status=...)`).
* Password hashing and verification are opaque capabilities, passed in as
  function parameters (`hash : String → String`,
  `verify : String → String → Bool`), as the spec prescribes.
* Each handler returns its JSON-visible outcome as `Except ApiError α`;
  mutating handlers additionally return the post-commit `Store` (on error
  the store is returned unchanged, matching commit/rollback semantics).
* JSON request bodies become records; a key the handler tests with
  `key in data` or reads with `data.get` is an `Option` field, a key read
  with `data[...]` is a required field.
-/

namespace MedSched

/-- Status strings of the `AppointmentStatus` enum in src/app.py; the
`appointments.status` column stores the enum's string value. -/
def PENDING : String := "PENDING"

/-- `AppointmentStatus.CONFIRMED.value`. -/
def CONFIRMED : String := "CONFIRMED"

/-- `AppointmentStatus.COMPLETED.value`. -/
def COMPLETED : String := "COMPLETED"

/-- `AppointmentStatus.CANCELLED.value`. -/
def CANCELLED : String := "CANCELLED"

/-- `AppointmentStatus.REJECTED.value`. -/
def REJECTED : String := "REJECTED"

/-- The error outcomes the handlers in src/app.py can produce.
`unauthorized` is the 401 produced by `@jwt_required()` when no valid token
accompanies the request; `internalError` is the 500 produced by the
`errorhandler(500)` hook (which rolls the transaction back), e.g. when a
commit violates a database unique constraint the handler did not pre-check. -/
inductive ApiError where
  | validationError
  | duplicateIdentity
  | invalidCredentials
  | notFound
  | unauthorized
  | internalError
  deriving DecidableEq, Repr

/-- Row of the `patients` table (src/app.py, class Patient). Timestamp and
optional medical-metadata columns are omitted: no handler reads them. -/
structure Patient where
  id : String
  first_name : String
  last_name : String
  email : String
  phone : String
  password_hash : String
  deriving DecidableEq, Repr

/-- Row of the `doctors` table (src/app.py, class Doctor). -/
structure Doctor where
  id : String
  first_name : String
  last_name : String
  email : String
  phone : String
  password_hash : String
  specialization : String
  license_number : String
  consultation_fee : Rat
  experience_years : Int
  rating_average : Rat
  is_available : Bool
  deriving DecidableEq, Repr

/-- Row of the `time_slots` table (src/app.py, class TimeSlot). -/
structure TimeSlot where
  id : String
  doctor_id : String
  date : String
  start_time : String
  end_time : String
  is_available : Bool
  capacity : Int
  booked_count : Int
  deriving DecidableEq, Repr

/-- Row of the `appointments` table (src/app.py, class Appointment).
The two timestamp columns are omitted: no claim mentions them. -/
structure Appointment where
  id : String
  patient_id : String
  doctor_id : String
  appointment_date : String
  appointment_time : String
  status : String
  consultation_notes : Option String
  ai_recommendation : Option String
  deriving DecidableEq, Repr

/-- Row of the `reviews` table (src/app.py, class Review). -/
structure Review where
  id : String
  patient_id : String
  doctor_id : String
  appointment_id : Option String
  rating : Int
  comment : Option String
  deriving DecidableEq, Repr

/-- The whole relational store: one list per table. -/
structure Store where
  patients : List Patient
  doctors : List Doctor
  slots : List TimeSlot
  appointments : List Appointment
  reviews : List Review
  deriving DecidableEq, Repr

/-- The empty database, as created by `db.create_all()`. -/
def emptyStore : Store := ⟨[], [], [], [], []⟩

deriving instance DecidableEq for Except

/-- `Patient.query.filter_by(email=...).first()`. -/
def Store.patientByEmail (s : Store) (email : String) : Option Patient :=
  s.patients.find? (fun p => p.email == email)

/-- `Patient.query.get(id)`. -/
def Store.patientById (s : Store) (pid : String) : Option Patient :=
  s.patients.find? (fun p => p.id == pid)

/-- `Doctor.query.filter_by(email=...).first()`. -/
def Store.doctorByEmail (s : Store) (email : String) : Option Doctor :=
  s.doctors.find? (fun d => d.email == email)

/-- `Doctor.query.get(id)`. -/
def Store.doctorById (s : Store) (did : String) : Option Doctor :=
  s.doctors.find? (fun d => d.id == did)

/-- `Appointment.query.get(id)`. -/
def Store.appointmentById (s : Store) (aid : String) : Option Appointment :=
  s.appointments.find? (fun a => a.id == aid)

/-- Body of POST /api/auth/patient-register. The handler requires the five
keys `first_name, last_name, email, phone, password`; `Option` models the
`key in data` presence test. -/
structure PatientRegData where
  first_name : Option String
  last_name : Option String
  email : Option String
  phone : Option String
  password : Option String
  deriving DecidableEq, Repr

/-- Handler `patient_register` (src/app.py lines 178-203): 400 if a required
field is missing, 400 if a patient row already has this email, otherwise a
new `Patient` row is committed (with uuid `newId` and `hash`ed password). -/
def patient_register (hash : String → String) (newId : String) (s : Store)
    (data : PatientRegData) : Except ApiError Patient × Store :=
  match data.first_name, data.last_name, data.email, data.phone, data.password with
  | some fn, some ln, some em, some ph, some pw =>
    if (s.patientByEmail em).isSome then
      (.error .duplicateIdentity, s)
    else
      let p : Patient := ⟨newId, fn, ln, em, ph, hash pw⟩
      (.ok p, { s with patients := s.patients ++ [p] })
  | _, _, _, _, _ => (.error .validationError, s)

/-- Handler `patient_login` (src/app.py lines 205-217): the same
`Invalid credentials` 401 is returned both when no patient has the email and
when `check_password` fails. -/
def patient_login (verify : String → String → Bool) (s : Store)
    (email password : String) : Except ApiError Patient :=
  match s.patientByEmail email with
  | none => .error .invalidCredentials
  | some p =>
    if verify p.password_hash password then .ok p
    else .error .invalidCredentials

/-- Body of POST /api/auth/doctor-register. Seven required keys; an optional
`consultation_fee` read with `data.get('consultation_fee', 500.0)`. -/
structure DoctorRegData where
  first_name : Option String
  last_name : Option String
  email : Option String
  phone : Option String
  password : Option String
  specialization : Option String
  license_number : Option String
  consultation_fee : Option Rat
  deriving DecidableEq, Repr

/-- Handler `doctor_register` (src/app.py lines 219-248). The handler itself
only pre-checks the email for duplication; a duplicate `license_number`
passes the handler's checks and the `db.session.commit()` then violates the
column's `unique=True` constraint, which surfaces as the 500 handler
(rollback, store unchanged). Column defaults: `experience_years=0`,
`rating_average=0.0`, `is_available=True`. -/
def doctor_register (hash : String → String) (newId : String) (s : Store)
    (data : DoctorRegData) : Except ApiError Doctor × Store :=
  match data.first_name, data.last_name, data.email, data.phone, data.password,
      data.specialization, data.license_number with
  | some fn, some ln, some em, some ph, some pw, some sp, some lic =>
    if (s.doctorByEmail em).isSome then
      (.error .duplicateIdentity, s)
    else if (s.doctors.find? (fun d => d.license_number == lic)).isSome then
      (.error .internalError, s)
    else
      let d : Doctor :=
        ⟨newId, fn, ln, em, ph, hash pw, sp, lic,
          data.consultation_fee.getD 500, 0, 0, true⟩
      (.ok d, { s with doctors := s.doctors ++ [d] })
  | _, _, _, _, _, _, _ => (.error .validationError, s)

/-- Handler `doctor_login` (src/app.py lines 250-262); same uniform
`Invalid credentials` failure as `patient_login`. -/
def doctor_login (verify : String → String → Bool) (s : Store)
    (email password : String) : Except ApiError Doctor :=
  match s.doctorByEmail email with
  | none => .error .invalidCredentials
  | some d =>
    if verify d.password_hash password then .ok d
    else .error .invalidCredentials

/-- Handler `get_available_slots` (src/app.py lines 288-303): 404 when the
doctor id is unknown; otherwise the doctor's slots filtered by the STORED
`is_available` column, then (when a `date` query parameter is given) by
exact date equality. -/
def get_available_slots (s : Store) (doctor_id : String)
    (date : Option String) : Except ApiError (List TimeSlot) :=
  match s.doctorById doctor_id with
  | none => .error .notFound
  | some _ =>
    let base := s.slots.filter (fun t => t.doctor_id == doctor_id && t.is_available)
    .ok (match date with
      | none => base
      | some dt => base.filter (fun t => t.date == dt))

/-- Body of POST /api/doctors/{id}/add-slots: `date`, `start_time`,
`end_time` are read with `data[...]` (required); `capacity` with
`data.get('capacity', 1)`. -/
structure SlotData where
  date : String
  start_time : String
  end_time : String
  capacity : Option Int
  deriving DecidableEq, Repr

/-- Handler `add_time_slots` (src/app.py lines 305-327): 404 when the doctor
id is unknown, otherwise a new `TimeSlot` row with column defaults
`is_available=True`, `booked_count=0`. The token required by
`@jwt_required()` carries an identity the handler never reads. -/
def add_time_slots (newId : String) (s : Store) (doctor_id : String)
    (data : SlotData) : Except ApiError TimeSlot × Store :=
  match s.doctorById doctor_id with
  | none => (.error .notFound, s)
  | some _ =>
    let slot : TimeSlot :=
      ⟨newId, doctor_id, data.date, data.start_time, data.end_time,
        true, data.capacity.getD 1, 0⟩
    (.ok slot, { s with slots := s.slots ++ [slot] })

/-- Body of POST /api/appointments: `doctor_id`, `appointment_date`,
`appointment_time` required, `consultation_notes` optional. -/
structure BookData where
  doctor_id : String
  appointment_date : String
  appointment_time : String
  consultation_notes : Option String
  deriving DecidableEq, Repr

/-- Handler `book_appointment` (src/app.py lines 333-359). `patient_id` is
`get_jwt_identity()`, the caller's token subject. 404 when the patient or
the doctor id is unknown; otherwise a new `Appointment` row in PENDING
status is committed. No slot is consulted or mutated, and
`ai_recommendation` is left unset (no code populates it). -/
def book_appointment (newId : String) (s : Store) (patient_id : String)
    (data : BookData) : Except ApiError Appointment × Store :=
  if (s.patientById patient_id).isSome && (s.doctorById data.doctor_id).isSome then
    let a : Appointment :=
      ⟨newId, patient_id, data.doctor_id, data.appointment_date,
        data.appointment_time, PENDING, data.consultation_notes, none⟩
    (.ok a, { s with appointments := s.appointments ++ [a] })
  else
    (.error .notFound, s)

/-- Handler `get_patient_appointments` (src/app.py lines 368-380).
`@jwt_required()` demands a valid token (`caller = none` models its absence,
yielding the 401); the verified token subject `c` is otherwise unused: the
handler never calls `get_jwt_identity()`. The result is the path patient's
appointments, optionally filtered by the raw `status` query string. -/
def get_patient_appointments (caller : Option String) (s : Store)
    (patient_id : String) (status : Option String) :
    Except ApiError (List Appointment) :=
  match caller with
  | none => .error .unauthorized
  | some _ =>
    let base := s.appointments.filter (fun a => a.patient_id == patient_id)
    .ok (match status with
      | none => base
      | some st => base.filter (fun a => a.status == st))

/-- Handler `cancel_appointment` (src/app.py lines 382-397): 404 when the
appointment id is unknown; otherwise the status column is set to CANCELLED
unconditionally — the current status is never inspected. -/
def cancel_appointment (s : Store) (appointment_id : String) :
    Except ApiError Appointment × Store :=
  match s.appointmentById appointment_id with
  | none => (.error .notFound, s)
  | some a =>
    let upd := s.appointments.map
      (fun b => if b.id == appointment_id then { b with status := CANCELLED } else b)
    (.ok { a with status := CANCELLED }, { s with appointments := upd })

/-- Handler `confirm_appointment` (src/app.py lines 399-412): 404 when the
appointment id is unknown; otherwise the status column is set to CONFIRMED
unconditionally — the current status is never inspected. -/
def confirm_appointment (s : Store) (appointment_id : String) :
    Except ApiError Appointment × Store :=
  match s.appointmentById appointment_id with
  | none => (.error .notFound, s)
  | some a =>
    let upd := s.appointments.map
      (fun b => if b.id == appointment_id then { b with status := CONFIRMED } else b)
    (.ok { a with status := CONFIRMED }, { s with appointments := upd })

/-- One state-mutating request against the service: the state-changing
subset of the REST surface (GET handlers and the two logins never write). -/
inductive Op where
  | patientRegister (newId : String) (data : PatientRegData)
  | doctorRegister (newId : String) (data : DoctorRegData)
  | addSlots (newId : String) (doctor_id : String) (data : SlotData)
  | book (newId : String) (patient_id : String) (data : BookData)
  | cancel (appointment_id : String)
  | confirm (appointment_id : String)

/-- The store a request leaves behind (post-commit on success, unchanged on
any error, matching the rollback semantics). -/
def run (hash : String → String) (s : Store) : Op → Store
  | .patientRegister newId data => (patient_register hash newId s data).2
  | .doctorRegister newId data => (doctor_register hash newId s data).2
  | .addSlots newId did data => (add_time_slots newId s did data).2
  | .book newId pid data => (book_appointment newId s pid data).2
  | .cancel aid => (cancel_appointment s aid).2
  | .confirm aid => (confirm_appointment s aid).2

/-- The store reached by a sequence of requests starting from the empty
database. -/
def runAll (hash : String → String) (ops : List Op) : Store :=
  ops.foldl (run hash) emptyStore

/-- `true` unless the request is an add-slots call whose effective capacity
(`data.get('capacity', 1)`) is negative. -/
def Op.capOK : Op → Bool
  | .addSlots _ _ data => decide (0 ≤ data.capacity.getD 1)
  | _ => true

/-- The §8 slot invariant for one slot: `0 <= booked_count <= capacity`. -/
def TimeSlot.capInvariant (t : TimeSlot) : Prop :=
  0 ≤ t.booked_count ∧ t.booked_count ≤ t.capacity

instance (t : TimeSlot) : Decidable t.capInvariant := by
  unfold TimeSlot.capInvariant; infer_instance

/-- Ratings of all reviews for one doctor, in insertion order
(the `rating` column of the `reviews` rows with this `doctor_id`). -/
def doctorRatings (s : Store) (did : String) : List Int :=
  (s.reviews.filter (fun r => r.doctor_id == did)).map Review.rating

/-- Arithmetic mean of a list of integer ratings, as a rational. -/
def mean (l : List Int) : Rat :=
  ((l.sum : Int) : Rat) / (l.length : Rat)

/-- Rounding to 2 decimal places, as Python's `round(x, 2)` up to
tie-breaking (Python floats round ties to even; no claim hits a tie). -/
def round2 (x : Rat) : Rat :=
  ((⌊100 * x + 1 / 2⌋ : Int) : Rat) / 100

/-- The `rating_average` entry of `Doctor.to_dict` (src/app.py line 110):
`round(self.rating_average, 2)`, the displayed rating. -/
def Doctor.rating_display (d : Doctor) : Rat :=
  round2 d.rating_average

/-- Modelled from the spec: `addReview(patientId, doctorId, appointmentId?,
rating, comment?)` creates a Review and recomputes and persists the
Doctor's `rating_average` as the arithmetic mean of all ratings for that
doctor. No review endpoint exists in src/app.py — only the `Review` model
and the `Doctor.rating_average` column (with its `to_dict` rounding) are
declared there — so the operation itself is taken from §4.4 of the spec. -/
def addReview (newId : String) (s : Store) (pid did : String)
    (aid : Option String) (rating : Int) (comment : Option String) : Store :=
  let r : Review := ⟨newId, pid, did, aid, rating, comment⟩
  let s' := { s with reviews := s.reviews ++ [r] }
  let docs := s'.doctors.map
    (fun d => if d.id == did then { d with rating_average := mean (doctorRatings s' did) } else d)
  { s' with doctors := docs }

/-! ## Concrete fixtures used to evaluate the handlers -/

/-- A registered patient row. -/
def basePatient : Patient := ⟨"p1", "Ann", "Reed", "ann@x.com", "111", "h1"⟩

/-- A registered doctor row. -/
def baseDoctor : Doctor :=
  ⟨"d1", "Carl", "Mons", "carl@x.com", "222", "h2", "cardiology", "L1", 500, 0, 0, true⟩

/-- An appointment already in the terminal CANCELLED state. -/
def cancelledAppt : Appointment :=
  ⟨"a1", "p1", "d1", "2024-06-01", "10:00", CANCELLED, none, none⟩

/-- An appointment already in the terminal COMPLETED state. -/
def completedAppt : Appointment :=
  ⟨"a2", "p1", "d1", "2024-06-02", "11:00", COMPLETED, none, none⟩

/-- Store holding one patient, one doctor and the two terminal appointments. -/
def c1Store : Store := ⟨[basePatient], [baseDoctor], [], [cancelledAppt, completedAppt], []⟩

/-- A slot whose `booked_count` equals its `capacity` (both 0; such a slot is
reachable by publishing a slot with `capacity=0`). -/
def fullSlot : TimeSlot := ⟨"t1", "d1", "2024-06-01", "10:00", "10:30", true, 0, 0⟩

/-- Store holding one patient, one doctor and the full slot. -/
def c2Store : Store := ⟨[basePatient], [baseDoctor], [fullSlot], [], []⟩

/-! ## Claim theorems -/

/-- **C1** (code bug, witnessed at the failing input): the spec demands that
`confirm` succeed only from PENDING and `cancel` only from PENDING or
CONFIRMED, with `InvalidTransition` and an unchanged status on a terminal
appointment. The handlers in src/app.py never inspect the current status:
on an appointment already CANCELLED, `confirm` succeeds and overwrites the
status to CONFIRMED, and on an appointment already COMPLETED, `cancel`
succeeds and overwrites the status to CANCELLED. -/
theorem confirm_cancel_ignore_terminal_states :
    cancelledAppt.status = CANCELLED ∧ completedAppt.status = COMPLETED ∧
    (confirm_appointment c1Store "a1").1 =
      .ok ⟨"a1", "p1", "d1", "2024-06-01", "10:00", CONFIRMED, none, none⟩ ∧
    ((confirm_appointment c1Store "a1").2.appointments.map Appointment.status) =
      [CONFIRMED, COMPLETED] ∧
    (cancel_appointment c1Store "a2").1 =
      .ok ⟨"a2", "p1", "d1", "2024-06-02", "11:00", CANCELLED, none, none⟩ ∧
    ((cancel_appointment c1Store "a2").2.appointments.map Appointment.status) =
      [CANCELLED, CANCELLED] := by decide

/-- **C2** (code bug, witnessed at the failing input): the spec demands that
booking against a slot at full capacity fail with `SlotFull`. The handler
`book_appointment` in src/app.py never consults the slot table at all: with
the doctor's only slot at full capacity (`booked_count = capacity`), the
booking succeeds, a PENDING appointment is created, and the slot row —
including `booked_count` — is untouched. No code path produces `SlotFull`,
and no `reserve` operation exists in the source. -/
theorem book_never_checks_slot_capacity :
    fullSlot.booked_count = fullSlot.capacity ∧
    (book_appointment "a1" c2Store "p1" ⟨"d1", "2024-06-01", "10:00", none⟩).1 =
      .ok ⟨"a1", "p1", "d1", "2024-06-01", "10:00", PENDING, none, none⟩ ∧
    (book_appointment "a1" c2Store "p1" ⟨"d1", "2024-06-01", "10:00", none⟩).2.slots =
      [fullSlot] := by decide

/-- **C9** (confirmed): listing a patient's appointments depends only on the
path's patient id and the `status` query parameter, never on the identity in
the caller's bearer token — any two authenticated callers receive the same
list, and an authenticated call never fails, so any authenticated identity
can read any patient's appointment list. -/
theorem patient_appointments_ignore_caller (c c' : String) (s : Store)
    (pid : String) (status : Option String) :
    get_patient_appointments (some c) s pid status =
      get_patient_appointments (some c') s pid status ∧
    ∃ l, get_patient_appointments (some c) s pid status = .ok l :=
  ⟨rfl, _, rfl⟩

/-- **C10** (confirmed): listing available slots for an unknown doctor id
fails with NotFound (it does not return an empty list), and a successful —
possibly empty — list is only ever returned when the doctor exists. -/
theorem available_slots_unknown_doctor_notFound (s : Store) (did : String)
    (date : Option String) :
    (s.doctorById did = none → get_available_slots s did date = .error .notFound) ∧
    (∀ l, get_available_slots s did date = .ok l → ∃ d ∈ s.doctors, d.id = did) := by
  constructor
  · intro h
    unfold get_available_slots
    rw [h]
  · intro l hl
    unfold get_available_slots at hl
    cases h : s.doctorById did with
    | none => rw [h] at hl; exact absurd hl (by simp)
    | some d =>
        refine ⟨d, List.mem_of_find?_eq_some h, ?_⟩
        have hbeq := List.find?_some h
        simpa using hbeq

/-- Witness for C10: on the empty store every doctor id is unknown, and the
handler answers NotFound. -/
theorem available_slots_unknown_doctor_notFound_witness :
    get_available_slots emptyStore "dX" none = .error .notFound :=
  (available_slots_unknown_doctor_notFound emptyStore "dX" none).1 rfl

/-- A slot with `capacity = 0` (and hence no free capacity) whose stored
`is_available` column nevertheless holds `True`, its creation default. -/
def c4Slot : TimeSlot := ⟨"t9", "d1", "2024-06-01", "09:00", "09:30", true, 0, 0⟩

/-- Store holding one doctor and the capacity-0 slot. -/
def c4Store : Store := ⟨[basePatient], [baseDoctor], [c4Slot], [], []⟩

/-- **C4 counterexample**: the handler filters on the STORED `is_available`
column, not on the derived predicate `booked_count < capacity`: a slot with
`capacity = 0` has no free capacity, yet `listAvailable` returns it because
its stored flag is still `True`. This refutes the claim that the returned
slots are exactly those with `booked_count < capacity`. -/
theorem listAvailable_stored_flag_counterexample :
    get_available_slots c4Store "d1" (some "2024-06-01") = .ok [c4Slot] ∧
    ¬ (c4Slot.booked_count < c4Slot.capacity) := by decide

/-- **C4 (amended)**: for every existing doctor and optional date,
`listAvailable` returns exactly the doctor's slots whose STORED
`is_available` column is true — not the derived predicate
`booked_count < capacity` — optionally restricted to slots whose date equals
the given date exactly. -/
theorem get_available_slots_spec (s : Store) (did : String) (date : Option String)
    (d : Doctor) (hd : s.doctorById did = some d) :
    ∃ l, get_available_slots s did date = .ok l ∧
      ∀ t, t ∈ l ↔ (t ∈ s.slots ∧ t.doctor_id = did ∧ t.is_available = true ∧
        ∀ dt, date = some dt → t.date = dt) := by
  unfold get_available_slots
  rw [hd]
  cases date with
  | none =>
      refine ⟨_, rfl, fun t => ?_⟩
      simp [List.mem_filter, and_assoc]
  | some dt =>
      refine ⟨_, rfl, fun t => ?_⟩
      simp [List.mem_filter, and_assoc]
      tauto

/-- Witness for C4 (amended): evaluated on the store holding the capacity-0
slot, whose stored flag is true, with no date filter. -/
theorem get_available_slots_spec_witness :
    ∃ l, get_available_slots c4Store "d1" none = .ok l ∧
      ∀ t, t ∈ l ↔ (t ∈ c4Store.slots ∧ t.doctor_id = "d1" ∧ t.is_available = true ∧
        ∀ dt, (none : Option String) = some dt → t.date = dt) :=
  get_available_slots_spec c4Store "d1" none baseDoctor (by decide)

/-- Store holding one patient and one doctor and nothing else. -/
def plainStore : Store := ⟨[basePatient], [baseDoctor], [], [], []⟩

/-- **C6** (confirmed): booking fails with NotFound when the caller's
patient id or the requested doctor id does not exist, and otherwise appends
exactly one new PENDING appointment linked to that patient and doctor with
the given date, time and optional notes (and no AI recommendation — nothing
populates that column). -/
theorem book_appointment_spec (newId : String) (s : Store) (pid : String)
    (data : BookData) :
    (((¬ ∃ p ∈ s.patients, p.id = pid) ∨ ¬ ∃ d ∈ s.doctors, d.id = data.doctor_id) →
      book_appointment newId s pid data = (.error .notFound, s)) ∧
    ((∃ p ∈ s.patients, p.id = pid) → (∃ d ∈ s.doctors, d.id = data.doctor_id) →
      ∃ a : Appointment,
        book_appointment newId s pid data =
          (.ok a, { s with appointments := s.appointments ++ [a] }) ∧
        a.status = PENDING ∧ a.patient_id = pid ∧ a.doctor_id = data.doctor_id ∧
        a.appointment_date = data.appointment_date ∧
        a.appointment_time = data.appointment_time ∧
        a.consultation_notes = data.consultation_notes ∧
        a.ai_recommendation = none) := by
  have hp : (s.patientById pid).isSome ↔ ∃ p ∈ s.patients, p.id = pid := by
    unfold Store.patientById
    rw [List.find?_isSome]
    simp
  have hd : (s.doctorById data.doctor_id).isSome ↔
      ∃ d ∈ s.doctors, d.id = data.doctor_id := by
    unfold Store.doctorById
    rw [List.find?_isSome]
    simp
  unfold book_appointment
  constructor
  · intro h
    rw [if_neg]
    intro hcond
    rw [Bool.and_eq_true] at hcond
    rcases h with h | h
    · exact h (hp.mp hcond.1)
    · exact h (hd.mp hcond.2)
  · intro h1 h2
    rw [if_pos (by rw [Bool.and_eq_true]; exact ⟨hp.mpr h1, hd.mpr h2⟩)]
    exact ⟨_, rfl, rfl, rfl, rfl, rfl, rfl, rfl, rfl⟩

/-- Witness for C6: booking for the existing patient `p1` against the
existing doctor `d1` creates exactly one PENDING appointment. -/
theorem book_appointment_spec_witness :
    ∃ a : Appointment,
      book_appointment "a7" plainStore "p1" ⟨"d1", "2024-07-01", "09:00", some "n"⟩ =
        (.ok a, { plainStore with appointments := plainStore.appointments ++ [a] }) ∧
      a.status = PENDING ∧ a.patient_id = "p1" ∧ a.doctor_id = "d1" ∧
      a.appointment_date = "2024-07-01" ∧ a.appointment_time = "09:00" ∧
      a.consultation_notes = some "n" ∧ a.ai_recommendation = none :=
  (book_appointment_spec "a7" plainStore "p1" ⟨"d1", "2024-07-01", "09:00", some "n"⟩).2
    (by decide) (by decide)

/-- **C7** (confirmed): for each role, authentication returns the identity
exactly when a record with the email exists and the password verifies
against its stored digest; both failure causes — unknown email and failing
verification — produce the very same `InvalidCredentials` error value, so
the two causes are indistinguishable from the response. -/
theorem login_uniform_failure (verify : String → String → Bool) (s : Store)
    (email password : String) :
    (∀ p, patient_login verify s email password = .ok p ↔
      s.patientByEmail email = some p ∧ verify p.password_hash password = true) ∧
    (s.patientByEmail email = none →
      patient_login verify s email password = .error .invalidCredentials) ∧
    (∀ p, s.patientByEmail email = some p → verify p.password_hash password = false →
      patient_login verify s email password = .error .invalidCredentials) ∧
    (∀ d, doctor_login verify s email password = .ok d ↔
      s.doctorByEmail email = some d ∧ verify d.password_hash password = true) ∧
    (s.doctorByEmail email = none →
      doctor_login verify s email password = .error .invalidCredentials) ∧
    (∀ d, s.doctorByEmail email = some d → verify d.password_hash password = false →
      doctor_login verify s email password = .error .invalidCredentials) := by
  refine ⟨?_, ?_, ?_, ?_, ?_, ?_⟩
  · intro p
    unfold patient_login
    cases h : s.patientByEmail email with
    | none => simp
    | some q =>
        dsimp only
        split_ifs with hv
        · simp only [Except.ok.injEq]
          constructor
          · rintro rfl; exact ⟨rfl, hv⟩
          · rintro ⟨hq, _⟩; exact (Option.some.injEq q p).mp hq
        · simp only [reduceCtorEq, false_iff, not_and]
          rintro hq
          rw [← (Option.some.injEq q p).mp hq]
          exact fun hvp => absurd hvp hv
  · intro h
    unfold patient_login
    rw [h]
  · intro p hp hv
    unfold patient_login
    rw [hp]
    dsimp only
    rw [if_neg]
    simp [hv]
  · intro d
    unfold doctor_login
    cases h : s.doctorByEmail email with
    | none => simp
    | some q =>
        dsimp only
        split_ifs with hv
        · simp only [Except.ok.injEq]
          constructor
          · rintro rfl; exact ⟨rfl, hv⟩
          · rintro ⟨hq, _⟩; exact (Option.some.injEq q d).mp hq
        · simp only [reduceCtorEq, false_iff, not_and]
          rintro hq
          rw [← (Option.some.injEq q d).mp hq]
          exact fun hvp => absurd hvp hv
  · intro h
    unfold doctor_login
    rw [h]
  · intro d hd hv
    unfold doctor_login
    rw [hd]
    dsimp only
    rw [if_neg]
    simp [hv]

/-- Witness for C7: against the store holding patient `ann@x.com` with
digest `h1` (verification modelled as digest equality), an unknown email
and a wrong password produce the identical error. -/
theorem login_uniform_failure_witness :
    patient_login (fun dig pw => dig == pw) plainStore "nobody@x.com" "h1" =
      .error .invalidCredentials ∧
    patient_login (fun dig pw => dig == pw) plainStore "ann@x.com" "wrong" =
      .error .invalidCredentials :=
  ⟨(login_uniform_failure (fun dig pw => dig == pw) plainStore "nobody@x.com" "h1").2.1
      (by decide),
   (login_uniform_failure (fun dig pw => dig == pw) plainStore "ann@x.com" "wrong").2.2.1
      basePatient (by decide) (by decide)⟩

/-- A doctor-registration body with a fresh email but the license number
`L1` already held by `baseDoctor`. -/
def c5Data : DoctorRegData :=
  ⟨some "Eve", some "Fox", some "eve@x.com", some "333", some "pw",
    some "derm", some "L1", none⟩

/-- **C5 counterexample**: registering a doctor whose email is fresh but
whose `license_number` is already taken does NOT fail with
`DuplicateIdentity`: the handler only pre-checks the email, so the duplicate
license reaches the database commit, whose unique-constraint violation
surfaces as the 500 internal error (with rollback). The claim's
`DuplicateIdentity` outcome is therefore wrong for the license key. -/
theorem doctor_register_duplicate_license_counterexample :
    (plainStore.doctors.map Doctor.license_number) = ["L1"] ∧
    plainStore.doctorByEmail "eve@x.com" = none ∧
    doctor_register id "d2" plainStore c5Data = (.error .internalError, plainStore) ∧
    (Except.error .internalError : Except ApiError Doctor) ≠
      .error .duplicateIdentity := by decide

/-- **C5 (amended)**: `register` creates a new Patient or Doctor exactly
when no existing record of that role shares its unique key, and fails with
`ValidationError` when a required field is absent. A duplicate email fails
with `DuplicateIdentity` (the handler pre-checks it); a duplicate doctor
`license_number` with a fresh email is instead rejected by the store's
unique constraint and surfaces as an internal error (500, transaction
rolled back). In every failure case the store — and hence the earlier
record — is unchanged. -/
theorem register_unique_keys (hash : String → String) (newId : String) (s : Store)
    (pdata : PatientRegData) (ddata : DoctorRegData)
    (fn ln em ph pw sp lic : String) (fee : Option Rat) :
    ((pdata.first_name = none ∨ pdata.last_name = none ∨ pdata.email = none ∨
        pdata.phone = none ∨ pdata.password = none) →
      patient_register hash newId s pdata = (.error .validationError, s)) ∧
    ((∃ p ∈ s.patients, p.email = em) →
      patient_register hash newId s ⟨some fn, some ln, some em, some ph, some pw⟩ =
        (.error .duplicateIdentity, s)) ∧
    ((¬ ∃ p ∈ s.patients, p.email = em) →
      ∃ p : Patient,
        patient_register hash newId s ⟨some fn, some ln, some em, some ph, some pw⟩ =
          (.ok p, { s with patients := s.patients ++ [p] }) ∧
        p.email = em ∧ p.id = newId) ∧
    ((ddata.first_name = none ∨ ddata.last_name = none ∨ ddata.email = none ∨
        ddata.phone = none ∨ ddata.password = none ∨ ddata.specialization = none ∨
        ddata.license_number = none) →
      doctor_register hash newId s ddata = (.error .validationError, s)) ∧
    ((∃ d ∈ s.doctors, d.email = em) →
      doctor_register hash newId s
          ⟨some fn, some ln, some em, some ph, some pw, some sp, some lic, fee⟩ =
        (.error .duplicateIdentity, s)) ∧
    ((¬ ∃ d ∈ s.doctors, d.email = em) → (∃ d ∈ s.doctors, d.license_number = lic) →
      doctor_register hash newId s
          ⟨some fn, some ln, some em, some ph, some pw, some sp, some lic, fee⟩ =
        (.error .internalError, s)) ∧
    ((¬ ∃ d ∈ s.doctors, d.email = em) → (¬ ∃ d ∈ s.doctors, d.license_number = lic) →
      ∃ d : Doctor,
        doctor_register hash newId s
            ⟨some fn, some ln, some em, some ph, some pw, some sp, some lic, fee⟩ =
          (.ok d, { s with doctors := s.doctors ++ [d] }) ∧
        d.email = em ∧ d.license_number = lic ∧ d.id = newId) := by
  have hpe : (s.patientByEmail em).isSome ↔ ∃ p ∈ s.patients, p.email = em := by
    unfold Store.patientByEmail
    rw [List.find?_isSome]
    simp
  have hde : (s.doctorByEmail em).isSome ↔ ∃ d ∈ s.doctors, d.email = em := by
    unfold Store.doctorByEmail
    rw [List.find?_isSome]
    simp
  have hdl : (s.doctors.find? (fun d => d.license_number == lic)).isSome ↔
      ∃ d ∈ s.doctors, d.license_number = lic := by
    rw [List.find?_isSome]
    simp
  refine ⟨?_, ?_, ?_, ?_, ?_, ?_, ?_⟩
  · intro h
    obtain ⟨f1, f2, f3, f4, f5⟩ := pdata
    unfold patient_register
    cases f1 <;> cases f2 <;> cases f3 <;> cases f4 <;> cases f5 <;>
      first
        | rfl
        | (exfalso; simp at h)
  · intro h
    unfold patient_register
    dsimp only
    rw [if_pos (hpe.mpr h)]
  · intro h
    unfold patient_register
    dsimp only
    rw [if_neg (fun hc => h (hpe.mp hc))]
    exact ⟨_, rfl, rfl, rfl⟩
  · intro h
    obtain ⟨f1, f2, f3, f4, f5, f6, f7, f8⟩ := ddata
    unfold doctor_register
    cases f1 <;> cases f2 <;> cases f3 <;> cases f4 <;> cases f5 <;> cases f6 <;>
        cases f7 <;>
      first
        | rfl
        | (exfalso; simp at h)
  · intro h
    unfold doctor_register
    dsimp only
    rw [if_pos (hde.mpr h)]
  · intro h1 h2
    unfold doctor_register
    dsimp only
    rw [if_neg (fun hc => h1 (hde.mp hc)), if_pos (hdl.mpr h2)]
  · intro h1 h2
    unfold doctor_register
    dsimp only
    rw [if_neg (fun hc => h1 (hde.mp hc)), if_neg (fun hc => h2 (hdl.mp hc))]
    exact ⟨_, rfl, rfl, rfl, rfl⟩

/-- Witness for C5 (amended): on the empty store, a complete
doctor-registration request succeeds and appends the new doctor row. -/
theorem register_unique_keys_witness :
    ∃ d : Doctor,
      doctor_register id "d9" emptyStore
          ⟨some "Eve", some "Fox", some "eve@x.com", some "333", some "pw",
            some "derm", some "L9", none⟩ =
        (.ok d, { emptyStore with doctors := emptyStore.doctors ++ [d] }) ∧
      d.email = "eve@x.com" ∧ d.license_number = "L9" ∧ d.id = "d9" :=
  (register_unique_keys id "d9" emptyStore ⟨none, none, none, none, none⟩
      ⟨none, none, none, none, none, none, none, none⟩
      "Eve" "Fox" "eve@x.com" "333" "pw" "derm" "L9" none).2.2.2.2.2.2
    (by simp [emptyStore]) (by simp [emptyStore])

/-! ## Slot-invariant machinery (C3) -/

/-- No handler in src/app.py ever writes `booked_count`: every slot row
still holds its creation value 0, together with a nonnegative capacity. -/
def slotsPristine (s : Store) : Prop :=
  ∀ t ∈ s.slots, t.booked_count = 0 ∧ 0 ≤ t.capacity

theorem patient_register_slots (hash : String → String) (newId : String)
    (s : Store) (data : PatientRegData) :
    (patient_register hash newId s data).2.slots = s.slots := by
  obtain ⟨f1, f2, f3, f4, f5⟩ := data
  unfold patient_register
  cases f1 <;> cases f2 <;> cases f3 <;> cases f4 <;> cases f5 <;>
    first
      | rfl
      | (dsimp only; split <;> rfl)

theorem doctor_register_slots (hash : String → String) (newId : String)
    (s : Store) (data : DoctorRegData) :
    (doctor_register hash newId s data).2.slots = s.slots := by
  obtain ⟨f1, f2, f3, f4, f5, f6, f7, f8⟩ := data
  unfold doctor_register
  cases f1 <;> cases f2 <;> cases f3 <;> cases f4 <;> cases f5 <;> cases f6 <;>
      cases f7 <;>
    first
      | rfl
      | (dsimp only; split <;> (try split) <;> rfl)

theorem book_appointment_slots (newId : String) (s : Store) (pid : String)
    (data : BookData) : (book_appointment newId s pid data).2.slots = s.slots := by
  unfold book_appointment
  split <;> rfl

theorem add_time_slots_slots (newId : String) (s : Store) (did : String)
    (data : SlotData) :
    (add_time_slots newId s did data).2.slots = s.slots ∨
    (add_time_slots newId s did data).2.slots =
      s.slots ++ [⟨newId, did, data.date, data.start_time, data.end_time, true,
        data.capacity.getD 1, 0⟩] := by
  unfold add_time_slots
  cases s.doctorById did <;> simp

theorem cancel_appointment_slots (s : Store) (aid : String) :
    (cancel_appointment s aid).2.slots = s.slots := by
  unfold cancel_appointment
  cases s.appointmentById aid <;> rfl

theorem confirm_appointment_slots (s : Store) (aid : String) :
    (confirm_appointment s aid).2.slots = s.slots := by
  unfold confirm_appointment
  cases s.appointmentById aid <;> rfl

theorem run_pristine (hash : String → String) (s : Store) (op : Op)
    (hs : slotsPristine s) (hop : op.capOK = true) :
    slotsPristine (run hash s op) := by
  unfold slotsPristine at hs ⊢
  intro t ht
  cases op with
  | patientRegister newId data =>
      rw [show run hash s (.patientRegister newId data) =
            (patient_register hash newId s data).2 from rfl,
        patient_register_slots] at ht
      exact hs t ht
  | doctorRegister newId data =>
      rw [show run hash s (.doctorRegister newId data) =
            (doctor_register hash newId s data).2 from rfl,
        doctor_register_slots] at ht
      exact hs t ht
  | book newId pid data =>
      rw [show run hash s (.book newId pid data) =
            (book_appointment newId s pid data).2 from rfl,
        book_appointment_slots] at ht
      exact hs t ht
  | cancel aid =>
      rw [show run hash s (.cancel aid) = (cancel_appointment s aid).2 from rfl,
        cancel_appointment_slots] at ht
      exact hs t ht
  | confirm aid =>
      rw [show run hash s (.confirm aid) = (confirm_appointment s aid).2 from rfl,
        confirm_appointment_slots] at ht
      exact hs t ht
  | addSlots newId did data =>
      rw [show run hash s (.addSlots newId did data) =
            (add_time_slots newId s did data).2 from rfl] at ht
      rcases add_time_slots_slots newId s did data with h | h
      · rw [h] at ht
        exact hs t ht
      · rw [h] at ht
        rcases List.mem_append.mp ht with h1 | h1
        · exact hs t h1
        · rw [List.mem_singleton.mp h1]
          exact ⟨rfl, of_decide_eq_true hop⟩

theorem foldl_pristine (hash : String → String) :
    ∀ (ops : List Op) (s : Store), slotsPristine s →
      (∀ op ∈ ops, op.capOK = true) → slotsPristine (ops.foldl (run hash) s)
  | [], _, hs, _ => hs
  | op :: rest, s, hs, h =>
      foldl_pristine hash rest (run hash s op)
        (run_pristine hash s op hs (h op (by simp)))
        (fun o ho => h o (by simp [ho]))

theorem runAll_pristine (hash : String → String) (ops : List Op)
    (h : ∀ op ∈ ops, op.capOK = true) : slotsPristine (runAll hash ops) :=
  foldl_pristine hash ops emptyStore (by intro t ht; simp [emptyStore] at ht) h

/-- A request sequence whose add-slots call publishes a NEGATIVE capacity:
register a doctor, then publish a slot with `capacity = -1`. The handler
performs no validation on the capacity field. -/
def c3BadOps : List Op :=
  [.doctorRegister "d1" ⟨some "Carl", some "Mons", some "carl@x.com", some "222",
      some "pw", some "cardiology", some "L1", none⟩,
   .addSlots "t1" "d1" ⟨"2024-06-01", "10:00", "10:30", some (-1)⟩]

/-- **C3 counterexample**: from the empty store, registering a doctor and
publishing a slot with `capacity = -1` — which `add_time_slots` accepts
without validation — reaches a state containing a slot with
`booked_count = 0 > capacity = -1`, violating
`0 <= booked_count <= capacity`. -/
theorem slot_invariant_counterexample :
    ¬ ∀ t ∈ (runAll id c3BadOps).slots, t.capInvariant := by decide

/-- **C3 (amended)**: for every state reachable by a sequence of the
operations from the empty store IN WHICH EVERY PUBLISHED SLOT CAPACITY IS
NONNEGATIVE, every TimeSlot satisfies `0 <= booked_count <= capacity`
(indeed `booked_count` stays 0: no operation ever books against a slot). -/
theorem slot_invariant_reachable (hash : String → String) (ops : List Op)
    (hcap : ∀ op ∈ ops, op.capOK = true) :
    ∀ t ∈ (runAll hash ops).slots, t.capInvariant := by
  intro t ht
  have h := runAll_pristine hash ops hcap t ht
  refine ⟨h.1.symm.le, ?_⟩
  rw [h.1]
  exact h.2

/-- A well-formed request sequence: register a doctor and a patient,
publish a slot with capacity 2, book, confirm, cancel. -/
def c3GoodOps : List Op :=
  [.doctorRegister "d1" ⟨some "Carl", some "Mons", some "carl@x.com", some "222",
      some "pw", some "cardiology", some "L1", none⟩,
   .addSlots "t1" "d1" ⟨"2024-06-01", "10:00", "10:30", some 2⟩,
   .patientRegister "p1" ⟨some "Ann", some "Reed", some "ann@x.com", some "111",
      some "pw"⟩,
   .book "a1" "p1" ⟨"d1", "2024-06-01", "10:00", none⟩,
   .confirm "a1",
   .cancel "a1"]

/-- Witness for C3 (amended): the six-request sequence above publishes only
nonnegative capacities, and every slot of the reached state satisfies the
invariant. -/
theorem slot_invariant_reachable_witness :
    (∀ op ∈ c3GoodOps, op.capOK = true) ∧
    ∀ t ∈ (runAll id c3GoodOps).slots, t.capInvariant :=
  ⟨by decide, slot_invariant_reachable id c3GoodOps (by decide)⟩

/-- **C8** (spec-modelled: no review endpoint exists in src/app.py): after
every `addReview` call, every doctor row carrying the reviewed doctor's id
holds as `rating_average` the arithmetic mean of all ratings recorded for
that doctor, and its displayed value (`Doctor.to_dict`, src/app.py line 110)
is that mean rounded to 2 decimal places. -/
theorem addReview_rating_average (newId : String) (s : Store) (pid did : String)
    (aid : Option String) (rating : Int) (comment : Option String) :
    ∀ d ∈ (addReview newId s pid did aid rating comment).doctors, d.id = did →
      d.rating_average =
        mean (doctorRatings (addReview newId s pid did aid rating comment) did) ∧
      d.rating_display =
        round2 (mean (doctorRatings (addReview newId s pid did aid rating comment) did)) := by
  intro d hd hid
  simp only [addReview, List.mem_map] at hd
  obtain ⟨d0, hd0, hmap⟩ := hd
  by_cases h : d0.id = did
  · rw [if_pos (by simp [h])] at hmap
    rw [← hmap]
    exact ⟨rfl, rfl⟩
  · rw [if_neg (by simp [h])] at hmap
    rw [← hmap] at hid
    exact absurd hid h

/-- Store after reviews with ratings 4 and 5 for doctor `d1`. -/
def c8Mid : Store :=
  addReview "r2" (addReview "r1" plainStore "p1" "d1" none 4 none) "p1" "d1" none 5 none

/-- Store after a third review with rating 3 for doctor `d1`. -/
def c8Final : Store := addReview "r3" c8Mid "p1" "d1" none 3 none

/-- The doctor row as it stands after the three reviews. -/
def c8Doc : Doctor :=
  ⟨"d1", "Carl", "Mons", "carl@x.com", "222", "h2", "cardiology", "L1", 500, 0,
    mean (doctorRatings c8Final "d1"), true⟩

/-- Witness for C8: after three `addReview` calls with ratings `[4, 5, 3]`
for doctor `d1`, the doctor's persisted `rating_average` and its 2-decimal
display both equal 4. -/
theorem addReview_rating_average_witness :
    c8Doc ∈ c8Final.doctors ∧ c8Doc.id = "d1" ∧
    c8Doc.rating_average = 4 ∧ c8Doc.rating_display = 4 := by
  have hmem : c8Doc ∈ c8Final.doctors := by
    rw [show c8Final.doctors = [c8Doc] from rfl]
    exact List.mem_singleton_self _
  have h := addReview_rating_average "r3" c8Mid "p1" "d1" none 3 none c8Doc hmem rfl
  have e : doctorRatings (addReview "r3" c8Mid "p1" "d1" none 3 none) "d1" =
      [4, 5, 3] := by decide
  refine ⟨hmem, rfl, ?_, ?_⟩
  · rw [h.1, e]
    norm_num [mean]
  · rw [h.2, e]
    norm_num [round2, mean]

end MedSched
